import Mathlib

/-!
Verification of `reprounzip/parameters.py` (ReproZip): the parameter-file
loader (`update_parameters` / `get_parameter`), its version-compatibility
gate built on `distutils.version.LooseVersion`, the embedded fallback
dataset `bundled_parameters`, and the catalog resolution algorithm that
consumers apply to the `docker_images` / `vagrant_boxes` sections.

The Python module is shallowly embedded: `json.loads` becomes a total
recursive-descent parser returning `Option JValue`; the process-wide
global `parameters` becomes explicit state of type `Option JValue`
threaded through the functions; a Python call that raises an uncaught
exception is modelled by the result `none`.
-/

namespace Repro

mutual

/-- A parsed JSON document, as produced by Python's `json.loads`.
Objects keep their key/value pairs in textual order (Python builds a
`dict`; with duplicate keys the last one wins, which lookup reproduces).
Numbers are kept as their source lexeme: no claim touches a numeric
payload, and this avoids a float model. -/
inductive JValue where
  | jnull : JValue
  | jbool : Bool → JValue
  | jnum : String → JValue
  | jstr : String → JValue
  | jarr : JList → JValue
  | jobj : JObj → JValue
deriving DecidableEq

/-- A JSON array's items, in order. -/
inductive JList where
  | nil : JList
  | cons : JValue → JList → JList
deriving DecidableEq

/-- A JSON object's key/value pairs, in textual order. -/
inductive JObj where
  | nil : JObj
  | cons : String → JValue → JObj → JObj
deriving DecidableEq

end

/-- Append one item at the end of an array. -/
def JList.snoc : JList → JValue → JList
  | .nil, v => .cons v .nil
  | .cons x rest, v => .cons x (rest.snoc v)

/-- Append one pair at the end of an object. -/
def JObj.snoc : JObj → String → JValue → JObj
  | .nil, k, v => .cons k v .nil
  | .cons k0 v0 rest, k, v => .cons k0 v0 (rest.snoc k v)

/-- `dict.get(k)` over the pairs of a JSON object: the last binding of the
key wins, as in a Python `dict` built by inserting the pairs in order. -/
def JObj.lookupLast : JObj → String → Option JValue → Option JValue
  | .nil, _, acc => acc
  | .cons k v rest, key, acc =>
    JObj.lookupLast rest key (if k = key then some v else acc)

def jlookup (kvs : JObj) (k : String) : Option JValue :=
  kvs.lookupLast k none

/-- Field access on an object value (`none` when the value is not an
object or the key is absent). -/
def jget (j : JValue) (k : String) : Option JValue :=
  match j with
  | .jobj kvs => jlookup kvs k
  | _ => none

/-- ASCII hexadecimal digit. -/
def isHexDigit (c : Char) : Bool :=
  c.isDigit || ('a' ≤ c ∧ c ≤ 'f') || ('A' ≤ c ∧ c ≤ 'F')

/-- JSON whitespace, as accepted between tokens by `json.loads`. -/
def isJsonWs (c : Char) : Bool :=
  c = ' ' || c = '\n' || c = '\t' || c = '\r'

def skipWs : List Char → List Char
  | [] => []
  | c :: rest => if isJsonWs c then skipWs rest else c :: rest

/-- The characters `{` and `}` (kept out of literals for hygiene). -/
def lbrace : Char := Char.ofNat 123
def rbrace : Char := Char.ofNat 125

/-- Decode the body of a JSON string literal, the opening quote already
consumed: returns the decoded characters and the input following the
closing quote.  The escapes are those of RFC 7159 as implemented by
Python's `json` module; `\uXXXX` is decoded from four hex digits. -/
def parseJStr : List Char → Option (List Char × List Char)
  | [] => none
  | c :: rest =>
    if c = '"' then some ([], rest)
    else if c = '\\' then
      match rest with
      | [] => none
      | e :: rest2 =>
        if e = 'u' then
          match rest2 with
          | h1 :: h2 :: h3 :: h4 :: rest3 =>
            if isHexDigit h1 && isHexDigit h2 && isHexDigit h3 && isHexDigit h4 then
              let hv : Char → Nat := fun h =>
                if h.isDigit then h.toNat - 48
                else if 'a' ≤ h ∧ h ≤ 'f' then h.toNat - 87
                else h.toNat - 55
              let n := ((hv h1 * 16 + hv h2) * 16 + hv h3) * 16 + hv h4
              match parseJStr rest3 with
              | some (cs, rem) => some (Char.ofNat n :: cs, rem)
              | none => none
            else none
          | _ => none
        else
          let dec : Option Char :=
            if e = '"' then some '"'
            else if e = '\\' then some '\\'
            else if e = '/' then some '/'
            else if e = 'n' then some '\n'
            else if e = 't' then some '\t'
            else if e = 'r' then some '\r'
            else if e = 'b' then some (Char.ofNat 8)
            else if e = 'f' then some (Char.ofNat 12)
            else none
          match dec with
          | none => none
          | some d =>
            match parseJStr rest2 with
            | some (cs, rem) => some (d :: cs, rem)
            | none => none
    else
      match parseJStr rest with
      | some (cs, rem) => some (c :: cs, rem)
      | none => none

/-- Greedy span of decimal digits. -/
def spanDigits : List Char → List Char × List Char
  | [] => ([], [])
  | c :: rest =>
    if c.isDigit then
      let (ds, rem) := spanDigits rest
      (c :: ds, rem)
    else ([], c :: rest)

/-- Lex a JSON number (grammar `-?(0|[1-9][0-9]*)(\.[0-9]+)?([eE][+-]?[0-9]+)?`),
returning its lexeme and the rest of the input. -/
def parseJNum (s : List Char) : Option (List Char × List Char) :=
  let (neg, s1) := match s with
    | '-' :: r => (['-'], r)
    | _ => (([] : List Char), s)
  match s1 with
  | [] => none
  | c :: rest =>
    if ¬ c.isDigit then none
    else
      let (intPart, s2) :=
        if c = '0' then ([c], rest)
        else
          let (ds, rem) := spanDigits rest
          (c :: ds, rem)
      let (fracPart, s3) :=
        match s2 with
        | '.' :: r =>
          match spanDigits r with
          | ([], _) => (none, s2)
          | (ds, rem) => (some ('.' :: ds), rem)
        | _ => (none, s2)
      match fracPart with
      | none =>
        match s2 with
        | '.' :: _ => none
        | _ =>
          match expPart s2 with
          | none => none
          | some (es, s4) => some (neg ++ intPart ++ es, s4)
      | some fp =>
        match expPart s3 with
        | none => none
        | some (es, s4) => some (neg ++ intPart ++ fp ++ es, s4)
where
  /-- Optional exponent; `none` signals a malformed exponent. -/
  expPart : List Char → Option (List Char × List Char)
  | 'e' :: r => expTail 'e' r
  | 'E' :: r => expTail 'E' r
  | s => some ([], s)
  expTail (e : Char) : List Char → Option (List Char × List Char)
  | '+' :: r =>
    match spanDigits r with
    | ([], _) => none
    | (ds, rem) => some (e :: '+' :: ds, rem)
  | '-' :: r =>
    match spanDigits r with
    | ([], _) => none
    | (ds, rem) => some (e :: '-' :: ds, rem)
  | r =>
    match spanDigits r with
    | ([], _) => none
    | (ds, rem) => some (e :: ds, rem)

/-- Does the input start with the given keyword? Returns the rest. -/
def stripKeyword (kw : List Char) (s : List Char) : Option (List Char) :=
  match kw, s with
  | [], s => some s
  | k :: ks, c :: cs => if c = k then stripKeyword ks cs else none
  | _ :: _, [] => none

mutual

/-- Recursive-descent JSON value parser (mirrors `json.loads`' grammar).
The fuel argument strictly decreases on each nested call; the driver
supplies more fuel than the input length, which suffices because at
least one character is consumed before every recursive use. -/
def parseVal : Nat → List Char → Option (JValue × List Char)
  | 0, _ => none
  | Nat.succ fuel, s =>
    match skipWs s with
    | [] => none
    | c :: rest =>
      if c = '"' then
        match parseJStr rest with
        | some (cs, rem) => some (.jstr (String.mk cs), rem)
        | none => none
      else if c = lbrace then
        match skipWs rest with
        | c2 :: rest2 =>
          if c2 = rbrace then some (.jobj .nil, rest2)
          else parseMembers fuel (c2 :: rest2) .nil
        | [] => none
      else if c = '[' then
        match skipWs rest with
        | ']' :: rest2 => some (.jarr .nil, rest2)
        | rest2 => parseItems fuel rest2 .nil
      else if c = 't' then
        match stripKeyword ['r', 'u', 'e'] rest with
        | some rem => some (.jbool true, rem)
        | none => none
      else if c = 'f' then
        match stripKeyword ['a', 'l', 's', 'e'] rest with
        | some rem => some (.jbool false, rem)
        | none => none
      else if c = 'n' then
        match stripKeyword ['u', 'l', 'l'] rest with
        | some rem => some (.jnull, rem)
        | none => none
      else
        match parseJNum (c :: rest) with
        | some (lex, rem) => some (.jnum (String.mk lex), rem)
        | none => none

/-- Members of an object, positioned at the first (non-`}`) key; `acc`
holds the pairs read so far, in order. -/
def parseMembers : Nat → List Char → JObj → Option (JValue × List Char)
  | 0, _, _ => none
  | Nat.succ fuel, s, acc =>
    match skipWs s with
    | '"' :: rest =>
      match parseJStr rest with
      | some (kcs, rem) =>
        match skipWs rem with
        | ':' :: rem2 =>
          match parseVal fuel rem2 with
          | some (v, rem3) =>
            let acc2 := acc.snoc (String.mk kcs) v
            match skipWs rem3 with
            | ',' :: rem4 => parseMembers fuel rem4 acc2
            | d :: rem4 =>
              if d = rbrace then some (.jobj acc2, rem4) else none
            | [] => none
          | none => none
        | _ => none
      | none => none
    | _ => none

/-- Items of an array, positioned at the first (non-`]`) item. -/
def parseItems : Nat → List Char → JList → Option (JValue × List Char)
  | 0, _, _ => none
  | Nat.succ fuel, s, acc =>
    match parseVal fuel s with
    | some (v, rem) =>
      let acc2 := acc.snoc v
      match skipWs rem with
      | ',' :: rem2 => parseItems fuel rem2 acc2
      | ']' :: rem2 => some (.jarr acc2, rem2)
      | _ => none
    | none => none

end

/-- `json.loads`: parse a whole document, requiring only whitespace after
the top-level value.  `none` models `ValueError`. -/
def json_loads (s : String) : Option JValue :=
  match parseVal (s.length + 2) s.data with
  | some (v, rem) =>
    match skipWs rem with
    | [] => some v
    | _ :: _ => none
  | none => none

/-! ## `distutils.version.LooseVersion`

`LooseVersion.parse` splits the version string with the regular expression
`(\d+ | [a-z]+ | \.)`, drops empty pieces and the dots, and converts the
all-digit pieces to integers.  Comparison is Python list comparison; on
mixed component types CPython 2 orders every number before every string
(the spec's "non-numeric suffixes sort lexically after numeric ones"). -/

/-- One parsed version component: an integer or a string. -/
inductive VerComp where
  | num : Nat → VerComp
  | str : String → VerComp
deriving DecidableEq

/-- Character class for the splitter: digits, `[a-z]`, the dot separator,
and everything else (which `re.split` leaves in the in-between pieces). -/
def charKind (c : Char) : Nat :=
  if c.isDigit then 0
  else if 'a' ≤ c ∧ c ≤ 'z' then 1
  else if c = '.' then 2
  else 3

/-- Group a string into maximal runs of characters of one kind. -/
def splitRunsAux : Option (Nat × List Char) → List Char → List (Nat × List Char)
  | acc, [] =>
    match acc with
    | some kr => [(kr.1, kr.2.reverse)]
    | none => []
  | acc, c :: rest =>
    let k := charKind c
    match acc with
    | some (k0, run) =>
      if k0 = k then splitRunsAux (some (k0, c :: run)) rest
      else (k0, run.reverse) :: splitRunsAux (some (k, [c])) rest
    | none => splitRunsAux (some (k, [c])) rest

/-- Decimal value of a digit run (`int(...)`, leading zeros allowed). -/
def digitsToNat (cs : List Char) : Nat :=
  cs.foldl (fun a c => a * 10 + (c.toNat - 48)) 0

/-- `LooseVersion(s).version`: the component list. -/
def looseParse (s : String) : List VerComp :=
  (splitRunsAux none s.data).filterMap fun kr =>
    if kr.1 = 0 then some (.num (digitsToNat kr.2))
    else if kr.1 = 2 then none
    else some (.str (String.mk kr.2))

/-- Strict order on components (numbers sort before strings). -/
def compLt : VerComp → VerComp → Bool
  | .num a, .num b => decide (a < b)
  | .num _, .str _ => true
  | .str _, .num _ => false
  | .str a, .str b => decide (a < b)

/-- Python list comparison, specialised to component lists. -/
def verLt : List VerComp → List VerComp → Bool
  | [], [] => false
  | [], _ :: _ => true
  | _ :: _, [] => false
  | a :: as_, b :: bs => if a = b then verLt as_ bs else compLt a b

def verLe (a b : List VerComp) : Bool := verLt a b || decide (a = b)

/-- The gate `LooseVersion('1.1') <= ver < LooseVersion('1.2')` from
`update_parameters`, as a predicate on the version string. -/
def versionInWindow (s : String) : Bool :=
  verLe (looseParse "1.1") (looseParse s) && verLt (looseParse s) (looseParse "1.2")

/-- The embedded default parameter document: byte-for-byte the value of
the Python string constant `bundled_parameters` of
`reprounzip/parameters.py` (braces and apostrophes are written with
character escapes; the Python source wraps the same text over many
adjacent literals). -/
def bundled_parameters : String :=
  "\x7b\n  \"version\": \"1.1.0\",\n  \"busybox_url\": \x7b\n    \"x86_64\": \"https://s3.amazonaws.com/reprozip-files/busybox-x86_64\",\n    \"i686\": \"https://s3.amazonaws.com/reprozip-files/busybox-i686\"\n  \x7d,\n  \"rpzsudo_url\": \x7b\n    \"x86_64\": \"https://github.com/remram44/static-sudo/releases/download/current/rpzsudo-x86_64\",\n    \"i686\": \"https://github.com/remram44/static-sudo/releases/download/current/rpzsudo-i686\"\n  \x7d,\n  \"docker_images\": \x7b\n    \"default\": \x7b\n      \"distribution\": \"debian\",\n      \"image\": \"debian:jessie\",\n      \"name\": \"Debian 8 \x27Jessie\x27\"\n    \x7d,\n    \"images\": [\n      \x7b\n        \"name\": \"^ubuntu$\",\n        \"versions\": [\n          \x7b\n            \"version\": \"^12\\\\.04$\",\n            \"distribution\": \"ubuntu\",\n            \"image\": \"ubuntu:12.04\",\n            \"name\": \"Ubuntu 12.04 \x27Precise\x27\"\n          \x7d,\n          \x7b\n            \"version\": \"^14\\\\.04$\",\n            \"distribution\": \"ubuntu\",\n            \"image\": \"ubuntu:14.04\",\n            \"name\": \"Ubuntu 14.04 \x27Trusty\x27\"\n          \x7d,\n          \x7b\n            \"version\": \"^14\\\\.10$\",\n            \"distribution\": \"ubuntu\",\n            \"image\": \"ubuntu:14.10\",\n            \"name\": \"Ubuntu 14.10 \x27Utopic\x27\"\n          \x7d,\n          \x7b\n            \"version\": \"^15\\\\.04$\",\n            \"distribution\": \"ubuntu\",\n            \"image\": \"ubuntu:15.04\",\n            \"name\": \"Ubuntu 15.04 \x27Vivid\x27\"\n          \x7d,\n          \x7b\n            \"version\": \"^15\\\\.10$\",\n            \"distribution\": \"ubuntu\",\n            \"image\": \"ubuntu:15.10\",\n            \"name\": \"Ubuntu 15.10 \x27Wily\x27\"\n          \x7d,\n          \x7b\n            \"version\": \"^16\\\\.04$\",\n            \"distribution\": \"ubuntu\",\n            \"image\": \"ubuntu:16.04\",\n            \"name\": \"Ubuntu 16.04 \x27Xenial\x27\"\n          \x7d\n        ],\n        \"default\": \x7b\n          \"distribution\": \"ubuntu\",\n          \"image\": \"ubuntu:15.10\",\n          \"name\": \"Ubuntu 15.10 \x27Wily\x27\"\n        \x7d\n      \x7d,\n      \x7b\n        \"name\": \"^debian$\",\n        \"versions\": [\n          \x7b\n            \"version\": \"^(6(\\\\.|$))|(squeeze$)\",\n            \"distribution\": \"debian\",\n            \"image\": \"debian:squeeze\",\n            \"name\": \"Debian 6 \x27Squeeze\x27\"\n          \x7d,\n          \x7b\n            \"version\": \"^(7(\\\\.|$))|(wheezy$)\",\n            \"distribution\": \"debian\",\n            \"image\": \"debian:wheezy\",\n            \"name\": \"Debian 7 \x27Wheezy\x27\"\n          \x7d,\n          \x7b\n            \"version\": \"^(8(\\\\.|$))|(jessie$)\",\n            \"distribution\": \"debian\",\n            \"image\": \"debian:jessie\",\n            \"name\": \"Debian 8 \x27Jessie\x27\"\n          \x7d,\n          \x7b\n            \"version\": \"^(9(\\\\.|$))|(stretch$)\",\n            \"distribution\": \"debian\",\n            \"image\": \"debian:stretch\",\n            \"name\": \"Debian 9 \x27Stretch\x27\"\n          \x7d\n        ],\n        \"default\": \x7b\n          \"distribution\": \"debian\",\n          \"image\": \"debian:jessie\",\n          \"name\": \"Debian 8 \x27Jessie\x27\"\n        \x7d\n      \x7d,\n      \x7b\n        \"name\": \"^centos( linux)?$\",\n        \"versions\": [\n          \x7b\n            \"version\": \"^5(\\\\.|$)\",\n            \"distribution\": \"centos\",\n            \"image\": \"centos:centos5\",\n            \"name\": \"CentOS 5\"\n          \x7d,\n          \x7b\n            \"version\": \"^6(\\\\.|$)\",\n            \"distribution\": \"centos\",\n            \"image\": \"centos:centos6\",\n            \"name\": \"CentOS 6\"\n          \x7d,\n          \x7b\n            \"version\": \"^7(\\\\.|$)\",\n            \"distribution\": \"centos\",\n            \"image\": \"centos:centos7\",\n            \"name\": \"CentOS 7\"\n          \x7d\n        ],\n        \"default\": \x7b\n          \"distribution\": \"centos\",\n          \"image\": \"centos:centos7\",\n          \"name\": \"CentOS 7\"\n        \x7d\n      \x7d\n    ]\n  \x7d,\n  \"vagrant_boxes\": \x7b\n    \"default\": \x7b\n      \"distribution\": \"debian\",\n        \"architectures\": \x7b\n          \"i686\": \"remram/debian-8-i386\",\n          \"x86_64\": \"remram/debian-8-amd64\"\n        \x7d,\n      \"name\": \"Debian 8 \x27Jessie\x27\"\n    \x7d,\n    \"boxes\": [\n      \x7b\n        \"name\": \"^ubuntu$\",        \"versions\": [\n          \x7b\n            \"version\": \"^12\\\\.04$\",\n            \"distribution\": \"ubuntu\",\n            \"architectures\": \x7b\n              \"i686\": \"hashicorp/precise32\",\n              \"x86_64\": \"hashicorp/precise64\"\n            \x7d,\n            \"name\": \"Ubuntu 12.04 \x27Precise\x27\"\n          \x7d,\n          \x7b\n            \"version\": \"^14\\\\.04$\",\n            \"distribution\": \"ubuntu\",\n            \"architectures\": \x7b\n              \"i686\": \"ubuntu/trusty32\",\n              \"x86_64\": \"ubuntu/trusty64\"\n            \x7d,\n            \"name\": \"Ubuntu 14.04 \x27Trusty\x27\"\n          \x7d,\n          \x7b\n            \"version\": \"^15\\\\.04$\",\n            \"distribution\": \"ubuntu\",\n            \"architectures\": \x7b\n              \"i686\": \"ubuntu/vivid32\",\n              \"x86_64\": \"ubuntu/vivid64\"\n            \x7d,\n            \"name\": \"Ubuntu 15.04 \x27Vivid\x27\"\n          \x7d,\n          \x7b\n            \"version\": \"^15\\\\.10$\",\n            \"distribution\": \"ubuntu\",\n            \"architectures\": \x7b\n              \"i686\": \"ubuntu/wily32\",\n              \"x86_64\": \"ubuntu/wily64\"\n            \x7d,\n            \"name\": \"Ubuntu 15.10 \x27Wily\x27\"\n          \x7d,\n          \x7b\n            \"version\": \"^16\\\\.04$\",\n            \"distribution\": \"ubuntu\",\n            \"architectures\": \x7b\n              \"i686\": \"bento/ubuntu-16.04-i386\",\n              \"x86_64\": \"bento/ubuntu-16.04\"\n            \x7d,\n            \"name\": \"Ubuntu 16.04 \x27Xenial\x27\"\n          \x7d\n        ],\n        \"default\": \x7b\n          \"distribution\": \"ubuntu\",\n          \"architectures\": \x7b\n            \"i686\": \"bento/ubuntu-16.04-i386\",\n            \"x86_64\": \"bento/ubuntu-16.04\"\n          \x7d,\n          \"name\": \"Ubuntu 16.04 \x27Xenial\x27\"\n        \x7d\n      \x7d,\n      \x7b\n        \"name\": \"^debian$\",\n        \"versions\": [\n          \x7b\n            \"version\": \"^(7(\\\\.|$))|(wheezy$)\",\n            \"distribution\": \"debian\",\n            \"architectures\": \x7b\n              \"i686\": \"remram/debian-7-i386\",\n              \"x86_64\": \"remram/debian-7-amd64\"\n            \x7d,\n            \"name\": \"Debian 7 \x27Wheezy\x27\"\n          \x7d,\n          \x7b\n            \"version\": \"^(8(\\\\.|$))|(jessie$)\",\n            \"distribution\": \"debian\",\n            \"architectures\": \x7b\n              \"i686\": \"remram/debian-8-i386\",\n              \"x86_64\": \"remram/debian-8-amd64\"\n            \x7d,\n            \"name\": \"Debian 8 \x27Jessie\x27\"\n          \x7d,\n          \x7b\n            \"version\": \"^(9(\\\\.|$))|(stretch$)\",\n            \"distribution\": \"debian\",\n            \"architectures\": \x7b\n              \"i686\": \"remram/debian-9-i386\",\n              \"x86_64\": \"remram/debian-9-amd64\"\n            \x7d,\n            \"name\": \"Debian 9 \x27Stretch\x27\"\n          \x7d\n        ],\n        \"default\": \x7b\n          \"distribution\": \"debian\",\n            \"architectures\": \x7b\n              \"i686\": \"remram/debian-8-i386\",\n              \"x86_64\": \"remram/debian-8-amd64\"\n            \x7d,\n          \"name\": \"Debian 8 \x27Jessie\x27\"\n        \x7d\n      \x7d,\n      \x7b\n        \"name\": \"^centos( linux)?$\",\n        \"versions\": [\n          \x7b\n            \"version\": \"^5\\\\.\",\n            \"distribution\": \"centos\",\n            \"architectures\": \x7b\n              \"i686\": \"bento/centos-5.11-i386\",\n              \"x86_64\": \"bento/centos-5.11\"\n            \x7d,\n            \"name\": \"CentOS 5.11\"\n          \x7d,\n          \x7b\n            \"version\": \"^6\\\\.\",\n            \"distribution\": \"centos\",\n            \"architectures\": \x7b\n              \"i686\": \"bento/centos-6.7-i386\",\n              \"x86_64\": \"bento/centos-6.7\"\n            \x7d,\n            \"name\": \"CentOS 6.7\"\n          \x7d,\n          \x7b\n            \"version\": \"^7\\\\.\",\n            \"distribution\": \"centos\",\n            \"architectures\": \x7b\n              \"x86_64\": \"bento/centos-7.2\"\n            \x7d,\n            \"name\": \"CentOS 7.2\"\n          \x7d\n        ],\n        \"default\": \x7b\n          \"distribution\": \"centos\",\n          \"architectures\": \x7b\n            \"i686\": \"bento/centos-6.7-i386\",\n            \"x86_64\": \"bento/centos-6.7\"\n          \x7d,\n          \"name\": \"CentOS 6.7\"\n        \x7d\n      \x7d,\n      \x7b\n        \"name\": \"^fedora$\",\n        \"versions\": [\n          \x7b\n            \"version\": \"^22$\",\n            \"distribution\": \"fedora\",\n            \"architectures\": \x7b\n              \"i686\": \"remram/fedora-22-i386\",\n              \"x86_64\": \"remram/fedora-22-amd64\"\n            \x7d,\n            \"name\": \"Fedora 22\"\n          \x7d,\n          \x7b\n            \"version\": \"^23$\",\n            \"distribution\": \"fedora\",\n            \"architectures\": \x7b\n              \"i686\": \"remram/fedora-23-i386\",\n              \"x86_64\": \"remram/fedora-23-amd64\"\n            \x7d,\n            \"name\": \"Fedora 23\"\n          \x7d,\n          \x7b\n            \"version\": \"^24$\",\n            \"distribution\": \"fedora\",\n            \"architectures\": \x7b\n              \"i686\": \"remram/fedora-24-i386\",\n              \"x86_64\": \"remram/fedora-24-amd64\"\n            \x7d,\n            \"name\": \"Fedora 24\"\n          \x7d\n        ],\n        \"default\": \x7b\n          \"distribution\": \"fedora\",\n          \"architectures\": \x7b\n            \"i686\": \"remram/fedora-24-i386\",\n            \"x86_64\": \"remram/fedora-24-amd64\"\n          \x7d,\n          \"name\": \"Fedora 24\"\n        \x7d\n      \x7d\n    ]\n  \x7d,\n  \"vagrant_boxes_x\": \x7b\n    \"default\": \x7b\n      \"distribution\": \"debian\",\n        \"architectures\": \x7b\n          \"i686\": \"remram/debian-8-amd64-x\",\n          \"x86_64\": \"remram/debian-8-amd64-x\"\n        \x7d,\n      \"name\": \"Debian 8 \x27Jessie\x27\"\n    \x7d,\n    \"boxes\": [\n      \x7b\n        \"name\": \"^ubuntu$\",        \"versions\": [\n          \x7b\n            \"version\": \"^16\\\\.04$\",\n            \"distribution\": \"ubuntu\",\n            \"architectures\": \x7b\n              \"i686\": \"remram/ubuntu-1604-amd64-x\",\n              \"x86_64\": \"remram/ubuntu-1604-amd64-x\"\n            \x7d,\n            \"name\": \"Ubuntu 16.04 \x27Xenial\x27\"\n          \x7d\n        ],\n        \"default\": \x7b\n          \"distribution\": \"ubuntu\",\n          \"architectures\": \x7b\n            \"i686\": \"remram/ubuntu-1604-amd64-x\",\n            \"x86_64\": \"remram/ubuntu-1604-amd64-x\"\n          \x7d,\n          \"name\": \"Ubuntu 16.04 \x27Xenial\x27\"\n        \x7d\n      \x7d,\n      \x7b\n        \"name\": \"^debian$\",\n        \"versions\": [\n          \x7b\n            \"version\": \"^(8(\\\\.|$))|(jessie$)\",\n            \"distribution\": \"debian\",\n            \"architectures\": \x7b\n              \"i686\": \"remram/debian-8-amd64-x\",\n              \"x86_64\": \"remram/debian-8-amd64-x\"\n            \x7d,\n            \"name\": \"Debian 8 \x27Jessie\x27\"\n          \x7d\n        ],\n        \"default\": \x7b\n          \"distribution\": \"debian\",\n            \"architectures\": \x7b\n              \"i686\": \"remram/debian-8-amd64-x\",\n              \"x86_64\": \"remram/debian-8-amd64-x\"\n            \x7d,\n          \"name\": \"Debian 8 \x27Jessie\x27\"\n        \x7d\n      \x7d\n    ]\n  \x7d\n\x7d\n"

/-- The parse of `bundled_parameters`, written out as a structured value
(proved below to be exactly what `json_loads` returns on it). -/
def bundledVal : JValue :=
  .jobj (.cons "version" (.jstr "1.1.0")
    (.cons "busybox_url" (.jobj (.cons "x86_64" (.jstr "https://s3.amazonaws.com/reprozip-files/busybox-x86_64")
        (.cons "i686" (.jstr "https://s3.amazonaws.com/reprozip-files/busybox-i686")
        (.nil))))
    (.cons "rpzsudo_url" (.jobj (.cons "x86_64" (.jstr "https://github.com/remram44/static-sudo/releases/download/current/rpzsudo-x86_64")
        (.cons "i686" (.jstr "https://github.com/remram44/static-sudo/releases/download/current/rpzsudo-i686")
        (.nil))))
    (.cons "docker_images" (.jobj (.cons "default" (.jobj (.cons "distribution" (.jstr "debian")
            (.cons "image" (.jstr "debian:jessie")
            (.cons "name" (.jstr "Debian 8 \x27Jessie\x27")
            (.nil)))))
        (.cons "images" (.jarr (.cons (.jobj (.cons "name" (.jstr "^ubuntu$")
                (.cons "versions" (.jarr (.cons (.jobj (.cons "version" (.jstr "^12\\.04$")
                        (.cons "distribution" (.jstr "ubuntu")
                        (.cons "image" (.jstr "ubuntu:12.04")
                        (.cons "name" (.jstr "Ubuntu 12.04 \x27Precise\x27")
                        (.nil))))))
                    (.cons (.jobj (.cons "version" (.jstr "^14\\.04$")
                        (.cons "distribution" (.jstr "ubuntu")
                        (.cons "image" (.jstr "ubuntu:14.04")
                        (.cons "name" (.jstr "Ubuntu 14.04 \x27Trusty\x27")
                        (.nil))))))
                    (.cons (.jobj (.cons "version" (.jstr "^14\\.10$")
                        (.cons "distribution" (.jstr "ubuntu")
                        (.cons "image" (.jstr "ubuntu:14.10")
                        (.cons "name" (.jstr "Ubuntu 14.10 \x27Utopic\x27")
                        (.nil))))))
                    (.cons (.jobj (.cons "version" (.jstr "^15\\.04$")
                        (.cons "distribution" (.jstr "ubuntu")
                        (.cons "image" (.jstr "ubuntu:15.04")
                        (.cons "name" (.jstr "Ubuntu 15.04 \x27Vivid\x27")
                        (.nil))))))
                    (.cons (.jobj (.cons "version" (.jstr "^15\\.10$")
                        (.cons "distribution" (.jstr "ubuntu")
                        (.cons "image" (.jstr "ubuntu:15.10")
                        (.cons "name" (.jstr "Ubuntu 15.10 \x27Wily\x27")
                        (.nil))))))
                    (.cons (.jobj (.cons "version" (.jstr "^16\\.04$")
                        (.cons "distribution" (.jstr "ubuntu")
                        (.cons "image" (.jstr "ubuntu:16.04")
                        (.cons "name" (.jstr "Ubuntu 16.04 \x27Xenial\x27")
                        (.nil))))))
                    (.nil))))))))
                (.cons "default" (.jobj (.cons "distribution" (.jstr "ubuntu")
                    (.cons "image" (.jstr "ubuntu:15.10")
                    (.cons "name" (.jstr "Ubuntu 15.10 \x27Wily\x27")
                    (.nil)))))
                (.nil)))))
            (.cons (.jobj (.cons "name" (.jstr "^debian$")
                (.cons "versions" (.jarr (.cons (.jobj (.cons "version" (.jstr "^(6(\\.|$))|(squeeze$)")
                        (.cons "distribution" (.jstr "debian")
                        (.cons "image" (.jstr "debian:squeeze")
                        (.cons "name" (.jstr "Debian 6 \x27Squeeze\x27")
                        (.nil))))))
                    (.cons (.jobj (.cons "version" (.jstr "^(7(\\.|$))|(wheezy$)")
                        (.cons "distribution" (.jstr "debian")
                        (.cons "image" (.jstr "debian:wheezy")
                        (.cons "name" (.jstr "Debian 7 \x27Wheezy\x27")
                        (.nil))))))
                    (.cons (.jobj (.cons "version" (.jstr "^(8(\\.|$))|(jessie$)")
                        (.cons "distribution" (.jstr "debian")
                        (.cons "image" (.jstr "debian:jessie")
                        (.cons "name" (.jstr "Debian 8 \x27Jessie\x27")
                        (.nil))))))
                    (.cons (.jobj (.cons "version" (.jstr "^(9(\\.|$))|(stretch$)")
                        (.cons "distribution" (.jstr "debian")
                        (.cons "image" (.jstr "debian:stretch")
                        (.cons "name" (.jstr "Debian 9 \x27Stretch\x27")
                        (.nil))))))
                    (.nil))))))
                (.cons "default" (.jobj (.cons "distribution" (.jstr "debian")
                    (.cons "image" (.jstr "debian:jessie")
                    (.cons "name" (.jstr "Debian 8 \x27Jessie\x27")
                    (.nil)))))
                (.nil)))))
            (.cons (.jobj (.cons "name" (.jstr "^centos( linux)?$")
                (.cons "versions" (.jarr (.cons (.jobj (.cons "version" (.jstr "^5(\\.|$)")
                        (.cons "distribution" (.jstr "centos")
                        (.cons "image" (.jstr "centos:centos5")
                        (.cons "name" (.jstr "CentOS 5")
                        (.nil))))))
                    (.cons (.jobj (.cons "version" (.jstr "^6(\\.|$)")
                        (.cons "distribution" (.jstr "centos")
                        (.cons "image" (.jstr "centos:centos6")
                        (.cons "name" (.jstr "CentOS 6")
                        (.nil))))))
                    (.cons (.jobj (.cons "version" (.jstr "^7(\\.|$)")
                        (.cons "distribution" (.jstr "centos")
                        (.cons "image" (.jstr "centos:centos7")
                        (.cons "name" (.jstr "CentOS 7")
                        (.nil))))))
                    (.nil)))))
                (.cons "default" (.jobj (.cons "distribution" (.jstr "centos")
                    (.cons "image" (.jstr "centos:centos7")
                    (.cons "name" (.jstr "CentOS 7")
                    (.nil)))))
                (.nil)))))
            (.nil)))))
        (.nil))))
    (.cons "vagrant_boxes" (.jobj (.cons "default" (.jobj (.cons "distribution" (.jstr "debian")
            (.cons "architectures" (.jobj (.cons "i686" (.jstr "remram/debian-8-i386")
                (.cons "x86_64" (.jstr "remram/debian-8-amd64")
                (.nil))))
            (.cons "name" (.jstr "Debian 8 \x27Jessie\x27")
            (.nil)))))
        (.cons "boxes" (.jarr (.cons (.jobj (.cons "name" (.jstr "^ubuntu$")
                (.cons "versions" (.jarr (.cons (.jobj (.cons "version" (.jstr "^12\\.04$")
                        (.cons "distribution" (.jstr "ubuntu")
                        (.cons "architectures" (.jobj (.cons "i686" (.jstr "hashicorp/precise32")
                            (.cons "x86_64" (.jstr "hashicorp/precise64")
                            (.nil))))
                        (.cons "name" (.jstr "Ubuntu 12.04 \x27Precise\x27")
                        (.nil))))))
                    (.cons (.jobj (.cons "version" (.jstr "^14\\.04$")
                        (.cons "distribution" (.jstr "ubuntu")
                        (.cons "architectures" (.jobj (.cons "i686" (.jstr "ubuntu/trusty32")
                            (.cons "x86_64" (.jstr "ubuntu/trusty64")
                            (.nil))))
                        (.cons "name" (.jstr "Ubuntu 14.04 \x27Trusty\x27")
                        (.nil))))))
                    (.cons (.jobj (.cons "version" (.jstr "^15\\.04$")
                        (.cons "distribution" (.jstr "ubuntu")
                        (.cons "architectures" (.jobj (.cons "i686" (.jstr "ubuntu/vivid32")
                            (.cons "x86_64" (.jstr "ubuntu/vivid64")
                            (.nil))))
                        (.cons "name" (.jstr "Ubuntu 15.04 \x27Vivid\x27")
                        (.nil))))))
                    (.cons (.jobj (.cons "version" (.jstr "^15\\.10$")
                        (.cons "distribution" (.jstr "ubuntu")
                        (.cons "architectures" (.jobj (.cons "i686" (.jstr "ubuntu/wily32")
                            (.cons "x86_64" (.jstr "ubuntu/wily64")
                            (.nil))))
                        (.cons "name" (.jstr "Ubuntu 15.10 \x27Wily\x27")
                        (.nil))))))
                    (.cons (.jobj (.cons "version" (.jstr "^16\\.04$")
                        (.cons "distribution" (.jstr "ubuntu")
                        (.cons "architectures" (.jobj (.cons "i686" (.jstr "bento/ubuntu-16.04-i386")
                            (.cons "x86_64" (.jstr "bento/ubuntu-16.04")
                            (.nil))))
                        (.cons "name" (.jstr "Ubuntu 16.04 \x27Xenial\x27")
                        (.nil))))))
                    (.nil)))))))
                (.cons "default" (.jobj (.cons "distribution" (.jstr "ubuntu")
                    (.cons "architectures" (.jobj (.cons "i686" (.jstr "bento/ubuntu-16.04-i386")
                        (.cons "x86_64" (.jstr "bento/ubuntu-16.04")
                        (.nil))))
                    (.cons "name" (.jstr "Ubuntu 16.04 \x27Xenial\x27")
                    (.nil)))))
                (.nil)))))
            (.cons (.jobj (.cons "name" (.jstr "^debian$")
                (.cons "versions" (.jarr (.cons (.jobj (.cons "version" (.jstr "^(7(\\.|$))|(wheezy$)")
                        (.cons "distribution" (.jstr "debian")
                        (.cons "architectures" (.jobj (.cons "i686" (.jstr "remram/debian-7-i386")
                            (.cons "x86_64" (.jstr "remram/debian-7-amd64")
                            (.nil))))
                        (.cons "name" (.jstr "Debian 7 \x27Wheezy\x27")
                        (.nil))))))
                    (.cons (.jobj (.cons "version" (.jstr "^(8(\\.|$))|(jessie$)")
                        (.cons "distribution" (.jstr "debian")
                        (.cons "architectures" (.jobj (.cons "i686" (.jstr "remram/debian-8-i386")
                            (.cons "x86_64" (.jstr "remram/debian-8-amd64")
                            (.nil))))
                        (.cons "name" (.jstr "Debian 8 \x27Jessie\x27")
                        (.nil))))))
                    (.cons (.jobj (.cons "version" (.jstr "^(9(\\.|$))|(stretch$)")
                        (.cons "distribution" (.jstr "debian")
                        (.cons "architectures" (.jobj (.cons "i686" (.jstr "remram/debian-9-i386")
                            (.cons "x86_64" (.jstr "remram/debian-9-amd64")
                            (.nil))))
                        (.cons "name" (.jstr "Debian 9 \x27Stretch\x27")
                        (.nil))))))
                    (.nil)))))
                (.cons "default" (.jobj (.cons "distribution" (.jstr "debian")
                    (.cons "architectures" (.jobj (.cons "i686" (.jstr "remram/debian-8-i386")
                        (.cons "x86_64" (.jstr "remram/debian-8-amd64")
                        (.nil))))
                    (.cons "name" (.jstr "Debian 8 \x27Jessie\x27")
                    (.nil)))))
                (.nil)))))
            (.cons (.jobj (.cons "name" (.jstr "^centos( linux)?$")
                (.cons "versions" (.jarr (.cons (.jobj (.cons "version" (.jstr "^5\\.")
                        (.cons "distribution" (.jstr "centos")
                        (.cons "architectures" (.jobj (.cons "i686" (.jstr "bento/centos-5.11-i386")
                            (.cons "x86_64" (.jstr "bento/centos-5.11")
                            (.nil))))
                        (.cons "name" (.jstr "CentOS 5.11")
                        (.nil))))))
                    (.cons (.jobj (.cons "version" (.jstr "^6\\.")
                        (.cons "distribution" (.jstr "centos")
                        (.cons "architectures" (.jobj (.cons "i686" (.jstr "bento/centos-6.7-i386")
                            (.cons "x86_64" (.jstr "bento/centos-6.7")
                            (.nil))))
                        (.cons "name" (.jstr "CentOS 6.7")
                        (.nil))))))
                    (.cons (.jobj (.cons "version" (.jstr "^7\\.")
                        (.cons "distribution" (.jstr "centos")
                        (.cons "architectures" (.jobj (.cons "x86_64" (.jstr "bento/centos-7.2")
                            (.nil)))
                        (.cons "name" (.jstr "CentOS 7.2")
                        (.nil))))))
                    (.nil)))))
                (.cons "default" (.jobj (.cons "distribution" (.jstr "centos")
                    (.cons "architectures" (.jobj (.cons "i686" (.jstr "bento/centos-6.7-i386")
                        (.cons "x86_64" (.jstr "bento/centos-6.7")
                        (.nil))))
                    (.cons "name" (.jstr "CentOS 6.7")
                    (.nil)))))
                (.nil)))))
            (.cons (.jobj (.cons "name" (.jstr "^fedora$")
                (.cons "versions" (.jarr (.cons (.jobj (.cons "version" (.jstr "^22$")
                        (.cons "distribution" (.jstr "fedora")
                        (.cons "architectures" (.jobj (.cons "i686" (.jstr "remram/fedora-22-i386")
                            (.cons "x86_64" (.jstr "remram/fedora-22-amd64")
                            (.nil))))
                        (.cons "name" (.jstr "Fedora 22")
                        (.nil))))))
                    (.cons (.jobj (.cons "version" (.jstr "^23$")
                        (.cons "distribution" (.jstr "fedora")
                        (.cons "architectures" (.jobj (.cons "i686" (.jstr "remram/fedora-23-i386")
                            (.cons "x86_64" (.jstr "remram/fedora-23-amd64")
                            (.nil))))
                        (.cons "name" (.jstr "Fedora 23")
                        (.nil))))))
                    (.cons (.jobj (.cons "version" (.jstr "^24$")
                        (.cons "distribution" (.jstr "fedora")
                        (.cons "architectures" (.jobj (.cons "i686" (.jstr "remram/fedora-24-i386")
                            (.cons "x86_64" (.jstr "remram/fedora-24-amd64")
                            (.nil))))
                        (.cons "name" (.jstr "Fedora 24")
                        (.nil))))))
                    (.nil)))))
                (.cons "default" (.jobj (.cons "distribution" (.jstr "fedora")
                    (.cons "architectures" (.jobj (.cons "i686" (.jstr "remram/fedora-24-i386")
                        (.cons "x86_64" (.jstr "remram/fedora-24-amd64")
                        (.nil))))
                    (.cons "name" (.jstr "Fedora 24")
                    (.nil)))))
                (.nil)))))
            (.nil))))))
        (.nil))))
    (.cons "vagrant_boxes_x" (.jobj (.cons "default" (.jobj (.cons "distribution" (.jstr "debian")
            (.cons "architectures" (.jobj (.cons "i686" (.jstr "remram/debian-8-amd64-x")
                (.cons "x86_64" (.jstr "remram/debian-8-amd64-x")
                (.nil))))
            (.cons "name" (.jstr "Debian 8 \x27Jessie\x27")
            (.nil)))))
        (.cons "boxes" (.jarr (.cons (.jobj (.cons "name" (.jstr "^ubuntu$")
                (.cons "versions" (.jarr (.cons (.jobj (.cons "version" (.jstr "^16\\.04$")
                        (.cons "distribution" (.jstr "ubuntu")
                        (.cons "architectures" (.jobj (.cons "i686" (.jstr "remram/ubuntu-1604-amd64-x")
                            (.cons "x86_64" (.jstr "remram/ubuntu-1604-amd64-x")
                            (.nil))))
                        (.cons "name" (.jstr "Ubuntu 16.04 \x27Xenial\x27")
                        (.nil))))))
                    (.nil)))
                (.cons "default" (.jobj (.cons "distribution" (.jstr "ubuntu")
                    (.cons "architectures" (.jobj (.cons "i686" (.jstr "remram/ubuntu-1604-amd64-x")
                        (.cons "x86_64" (.jstr "remram/ubuntu-1604-amd64-x")
                        (.nil))))
                    (.cons "name" (.jstr "Ubuntu 16.04 \x27Xenial\x27")
                    (.nil)))))
                (.nil)))))
            (.cons (.jobj (.cons "name" (.jstr "^debian$")
                (.cons "versions" (.jarr (.cons (.jobj (.cons "version" (.jstr "^(8(\\.|$))|(jessie$)")
                        (.cons "distribution" (.jstr "debian")
                        (.cons "architectures" (.jobj (.cons "i686" (.jstr "remram/debian-8-amd64-x")
                            (.cons "x86_64" (.jstr "remram/debian-8-amd64-x")
                            (.nil))))
                        (.cons "name" (.jstr "Debian 8 \x27Jessie\x27")
                        (.nil))))))
                    (.nil)))
                (.cons "default" (.jobj (.cons "distribution" (.jstr "debian")
                    (.cons "architectures" (.jobj (.cons "i686" (.jstr "remram/debian-8-amd64-x")
                        (.cons "x86_64" (.jstr "remram/debian-8-amd64-x")
                        (.nil))))
                    (.cons "name" (.jstr "Debian 8 \x27Jessie\x27")
                    (.nil)))))
                (.nil)))))
            (.nil))))
        (.nil))))
    (.nil)))))))

/-! ## `update_parameters` and `get_parameter`

The process-wide global `parameters` (initially `None`) is threaded
explicitly as a value of type `Option JValue`.  The external collaborators
(`os.environ.get`, `download_file` composed with reading the cached file,
the running tool's `__version__`, and whether `filename.remove()` raises
`OSError`) are an environment record.  A result of `none` models an
exception escaping the Python function. -/

/-- `str.startswith(pre)` (`String.startsWith` itself is defined through
`Substring` primitives that do not reduce, so the model spells it out
over the character lists). -/
def strStartsWith (s pre : String) : Bool :=
  go s.data pre.data
where
  go : List Char → List Char → Bool
  | _, [] => true
  | [], _ :: _ => false
  | c :: cs, p :: ps => if c = p then go cs ps else false

/-- `str.lower()` on the ASCII distribution names (`String.toLower` does
not reduce). -/
def strToLower (s : String) : String :=
  String.mk (s.data.map fun c =>
    if 'A' ≤ c ∧ c ≤ 'Z' then Char.ofNat (c.toNat + 32) else c)

structure FetchEnv where
  /-- `os.environ.get('REPROZIP_PARAMETERS')`. -/
  envVar : Option String
  /-- The fetch-and-cache collaborator: `download_file(url, ...)` followed
  by reading the returned file; `none` models `download_file` raising
  (any `Exception`), `some content` a successful fetch of `content`. -/
  fetch : String → Option String
  /-- `reprounzip.main.__version__`, appended to the URL. -/
  version : String
  /-- Whether `filename.remove()` raises `OSError` (the code swallows it,
  so this flag is never read by the model — exactly the point). -/
  removeFails : Bool

/-- The observable outcome of one `update_parameters` run: the new value
of the global, which URL (if any) was given to the fetch collaborator,
and whether the cached file's removal was attempted. -/
structure UpdateResult where
  parameters : Option JValue
  fetchedUrl : Option String
  removeAttempted : Bool
deriving DecidableEq

def default_url : String := "https://reprozip-stats.poly.edu/parameters/"

/-- `env_var in (None, '', '1', 'on', 'enabled', 'yes', 'true')`. -/
def envIsWhitelisted (v : Option String) : Bool :=
  decide (v = none) || decide (v = some "") || decide (v = some "1") ||
  decide (v = some "on") || decide (v = some "enabled") ||
  decide (v = some "yes") || decide (v = some "true")

/-- `parameters.get('version', '1.0')` fed to `LooseVersion`: `none` when
the parsed document is not an object (`.get` raises `AttributeError`) or
its `version` field is not a string (`LooseVersion` raises on it). -/
def getVersionString (doc : JValue) : Option String :=
  match doc with
  | .jobj kvs =>
    match jlookup kvs "version" with
    | none => some "1.0"
    | some (.jstr s) => some s
    | some _ => none
  | _ => none

/-- The `try: download ... else: parse / version-gate` tail of
`update_parameters` (lines 48-77), for a given base URL. -/
def fetchAndGate (env : FetchEnv) (url : String) : Option UpdateResult :=
  let fullUrl := url ++ env.version
  match env.fetch fullUrl with
  | none =>
    -- `download_file` raised: logged at info level, fall through to
    -- `parameters = json.loads(bundled_parameters)`
    match json_loads bundled_parameters with
    | some v => some ⟨some v, some fullUrl, false⟩
    | none => none
  | some content =>
    match json_loads content with
    | none =>
      -- `ValueError`: logged, best-effort `filename.remove()` (an
      -- `OSError` is swallowed: `env.removeFails` is not consulted),
      -- fall through to the bundled document
      match json_loads bundled_parameters with
      | some v => some ⟨some v, some fullUrl, true⟩
      | none => none
    | some doc =>
      match getVersionString doc with
      | none => none
      | some ver =>
        if versionInWindow ver then some ⟨some doc, some fullUrl, false⟩
        else
          -- incompatible version: logged, fall through to the bundled
          -- document (overwriting the transient assignment of `doc`)
          match json_loads bundled_parameters with
          | some v => some ⟨some v, some fullUrl, false⟩
          | none => none

/-- `update_parameters()` (lines 30-77), from global state `p`. -/
def update_parameters (env : FetchEnv) (p : Option JValue) : Option UpdateResult :=
  match p with
  | some v => some ⟨some v, none, false⟩
  | none =>
    match env.envVar with
    | some ev =>
      if ev ≠ "" ∧ (strStartsWith ev "http://" ∨ strStartsWith ev "https://") then
        fetchAndGate env ev
      else if envIsWhitelisted (some ev) then
        fetchAndGate env default_url
      else
        match json_loads bundled_parameters with
        | some v => some ⟨some v, none, false⟩
        | none => none
    | none => fetchAndGate env default_url

/-- `get_parameter(section)` (lines 80-86): runs `update_parameters` when
the global is unset, then returns `parameters.get(section, None)`.
Result: `some (newGlobal, payload)`, or `none` for an escaping
exception (only possible when the loaded value is not an object). -/
def get_parameter (env : FetchEnv) (p : Option JValue) (sect : String) :
    Option (Option JValue × Option JValue) :=
  let upd : Option UpdateResult :=
    match p with
    | none => update_parameters env none
    | some v => some ⟨some v, none, false⟩
  match upd with
  | none => none
  | some r =>
    match r.parameters with
    | some (.jobj kvs) => some (some (.jobj kvs), jlookup kvs sect)
    | _ => none

/-! ## Pattern matching over the catalogs

The resolution algorithm applied to the `docker_images` /
`vagrant_boxes` sections lives in the unpacker plugins, which are not in
this source tree; it is modelled here from the spec (§4.2
`resolveImageOrBox`).  The catalog patterns only use literals, `\`-escaped
literals, the anchors `^` `$`, `.`, groups, alternation and `?`, so the
regex model covers exactly that fragment (anything else fails to
compile, surfacing the spec's `DatasetIntegrityError`). -/

/-- Regular-expression abstract syntax for the catalog patterns. -/
inductive Rx where
  | eps : Rx
  | lit : Char → Rx
  | anych : Rx
  | bol : Rx
  | eol : Rx
  | seq : Rx → Rx → Rx
  | alt : Rx → Rx → Rx
  | opt : Rx → Rx
deriving DecidableEq

/-- All ways of matching `r` at absolute position `pos`, the input's
suffix at `pos` being `s`: the list of (new position, new suffix) pairs.
`^` succeeds only at position 0 and `$` only at the end of the input
(the subjects contain no newlines, so Python's trailing-newline
refinement of `$` does not arise). -/
def rxMatch : Rx → Nat → List Char → List (Nat × List Char)
  | .eps, pos, s => [(pos, s)]
  | .lit c, pos, s =>
    match s with
    | x :: rest => if x = c then [(pos + 1, rest)] else []
    | [] => []
  | .anych, pos, s =>
    match s with
    | x :: rest => if x = '\n' then [] else [(pos + 1, rest)]
    | [] => []
  | .bol, pos, s => if pos = 0 then [(pos, s)] else []
  | .eol, pos, s =>
    match s with
    | [] => [(pos, s)]
    | _ :: _ => []
  | .seq a b, pos, s => (rxMatch a pos s).flatMap fun pr => rxMatch b pr.1 pr.2
  | .alt a b, pos, s => rxMatch a pos s ++ rxMatch b pos s
  | .opt a, pos, s => (pos, s) :: rxMatch a pos s

/-- `re.search`: try every start position, left to right, including the
position just past the last character. -/
def rxSearchAux (r : Rx) : Nat → List Char → Bool
  | pos, [] => !(rxMatch r pos []).isEmpty
  | pos, c :: rest =>
    if !(rxMatch r pos (c :: rest)).isEmpty then true
    else rxSearchAux r (pos + 1) rest

def reSearch (r : Rx) (s : String) : Bool :=
  rxSearchAux r 0 s.data

mutual

/-- Alternation level of the pattern grammar: `seq ('|' seq)*`. -/
def rxAlt : Nat → List Char → Option (Rx × List Char)
  | 0, _ => none
  | Nat.succ f, s =>
    match rxSeq f s with
    | none => none
    | some (r, rest) =>
      match rest with
      | '|' :: rest2 =>
        match rxAlt f rest2 with
        | some (r2, rest3) => some (.alt r r2, rest3)
        | none => none
      | _ => some (r, rest)

/-- Concatenation level: a run of postfix-`?`-decorated atoms, stopping
at `)`/`|`/end (an empty run is the empty pattern). -/
def rxSeq : Nat → List Char → Option (Rx × List Char)
  | 0, _ => none
  | Nat.succ f, s =>
    match s with
    | [] => some (.eps, [])
    | ')' :: _ => some (.eps, s)
    | '|' :: _ => some (.eps, s)
    | _ =>
      match rxAtom f s with
      | none => none
      | some (a, rest) =>
        let step : Rx × List Char :=
          match rest with
          | '?' :: r2 => (.opt a, r2)
          | _ => (a, rest)
        match rxSeq f step.2 with
        | none => none
        | some (b, rest3) => some (.seq step.1 b, rest3)

/-- Atom level: group, escaped literal, anchor, wildcard or literal.
Metacharacters outside this fragment (classes, `*`, `+`, repetition
braces, alphanumeric escapes) are rejected. -/
def rxAtom : Nat → List Char → Option (Rx × List Char)
  | 0, _ => none
  | Nat.succ f, s =>
    match s with
    | [] => none
    | '(' :: rest =>
      match rxAlt f rest with
      | some (r, ')' :: rest2) => some (r, rest2)
      | _ => none
    | '\\' :: e :: rest =>
      if e.isAlphanum then none else some (.lit e, rest)
    | '^' :: rest => some (.bol, rest)
    | '$' :: rest => some (.eol, rest)
    | '.' :: rest => some (.anych, rest)
    | c :: rest =>
      if c = '?' ∨ c = '*' ∨ c = '+' ∨ c = '[' ∨ c = lbrace then none
      else some (.lit c, rest)

end

/-- Compile a pattern string (of the fragment above) to its syntax tree;
`none` models `re.error` / an unsupported construct. -/
def compileRegex (pat : String) : Option Rx :=
  match rxAlt (pat.length * 2 + 4) pat.data with
  | some (r, []) => some r
  | _ => none

/-- Modelled from the spec: step 2/3 of `resolveImageOrBox` (§4.2) — scan
a catalog level in order and keep the first element whose pattern (stored
under `patKey`) is found in `subject` by unanchored regex search.
`none` is the spec's `DatasetIntegrityError` (malformed or missing
pattern, surfaced and not skipped); `some none` means no element matched;
`some (some e)` is the first match. -/
def firstPatternMatch (entries : JList) (patKey : String) (subject : String) :
    Option (Option JValue) :=
  match entries with
  | .nil => some none
  | .cons e rest =>
    match jget e patKey with
    | some (.jstr pat) =>
      match compileRegex pat with
      | none => none
      | some r =>
        if reSearch r subject then some (some e)
        else firstPatternMatch rest patKey subject
    | _ => none

/-- Modelled from the spec: `resolveImageOrBox(catalog, name, version)`
(§4.2), the two-level first-match-wins resolution used by the consumers
of `docker_images` / `vagrant_boxes` (the unpacker plugins, outside this
source tree).  The distribution name is normalized case-insensitively
(lower-cased) before matching; the version string is matched raw.  The
entry list sits under `entriesKey` (`"images"` or `"boxes"` in the
bundled catalogs).  No name match falls back to the catalog's top-level
`default`; a matched entry with no version-rule match falls back to the
entry's own `default`. -/
def resolveImageOrBox (catalog : JValue) (entriesKey : String)
    (distName ver : String) : Option JValue :=
  match jget catalog "default", jget catalog entriesKey with
  | some dflt, some (.jarr entries) =>
    match firstPatternMatch entries "name" (strToLower distName) with
    | none => none
    | some none => some dflt
    | some (some entry) =>
      match jget entry "versions", jget entry "default" with
      | some (.jarr rules), some entryDflt =>
        match firstPatternMatch rules "version" ver with
        | none => none
        | some none => some entryDflt
        | some (some rule) => some rule
      | _, _ => none
  | _, _ => none

/-- Conversion to `List` for quantifying over a catalog's records. -/
def JList.toList : JList → List JValue
  | .nil => []
  | .cons v r => v :: r.toList

/-- Both architecture keys are present in a record's `architectures`. -/
def hasBothArchs (rec : JValue) : Bool :=
  match jget rec "architectures" with
  | some a => (jget a "i686").isSome && (jget a "x86_64").isSome
  | none => false

/-- Every version-rule record and default record of one catalog entry. -/
def entryRecords (e : JValue) : List JValue :=
  (match jget e "versions" with
   | some (.jarr vs) => vs.toList
   | _ => []) ++
  (match jget e "default" with
   | some d => [d]
   | none => [])

/-- Every resolvable record of a catalog: the top-level default and each
entry's version rules and default. -/
def catalogRecords (catalog : JValue) (entriesKey : String) : List JValue :=
  (match jget catalog "default" with
   | some d => [d]
   | none => []) ++
  (match jget catalog entriesKey with
   | some (.jarr es) => es.toList.flatMap entryRecords
   | _ => [])

/-! ## Concrete values and scenarios referenced by the claims -/

/-- The `docker_images` section of the embedded default dataset, through
the real pipeline (`json.loads` on the embedded text, then key lookup). -/
def dockerCatalog : Option JValue :=
  (json_loads bundled_parameters).bind fun d => jget d "docker_images"

/-- The `vagrant_boxes` section of the embedded default dataset. -/
def vagrantCatalog : Option JValue :=
  (json_loads bundled_parameters).bind fun d => jget d "vagrant_boxes"

/-- The Ubuntu 14.04 "Trusty" container record of the bundled catalog. -/
def trustyImageRec : JValue :=
  .jobj (.cons "version" (.jstr "^14\\.04$")
    (.cons "distribution" (.jstr "ubuntu")
    (.cons "image" (.jstr "ubuntu:14.04")
    (.cons "name" (.jstr "Ubuntu 14.04 \x27Trusty\x27")
    (.nil)))))

/-- The Ubuntu entry's own default record (Ubuntu 15.10 "Wily"). -/
def wilyDefaultRec : JValue :=
  .jobj (.cons "distribution" (.jstr "ubuntu")
    (.cons "image" (.jstr "ubuntu:15.10")
    (.cons "name" (.jstr "Ubuntu 15.10 \x27Wily\x27")
    (.nil))))

/-- The docker catalog's top-level default record (Debian 8 "Jessie"). -/
def jessieDefaultRec : JValue :=
  .jobj (.cons "distribution" (.jstr "debian")
    (.cons "image" (.jstr "debian:jessie")
    (.cons "name" (.jstr "Debian 8 \x27Jessie\x27")
    (.nil))))

/-- The CentOS `^7\.` version rule of the bundled `vagrant_boxes`
catalog — the one record whose `architectures` has no `i686` key. -/
def centos7BoxRec : JValue :=
  .jobj (.cons "version" (.jstr "^7\\.")
    (.cons "distribution" (.jstr "centos")
    (.cons "architectures" (.jobj (.cons "x86_64" (.jstr "bento/centos-7.2") (.nil)))
    (.cons "name" (.jstr "CentOS 7.2")
    (.nil)))))

/-- An environment whose fetch collaborator always fails (offline). -/
def envOffline : FetchEnv :=
  ⟨none, fun _ => none, "1.0.16", false⟩

/-- A minimal remote document carrying only a `version` field. -/
def versionDoc (v : String) : String :=
  "\x7b\"version\": \"" ++ v ++ "\"\x7d"

/-- An environment whose fetch collaborator serves `versionDoc v`. -/
def envServing (v : String) : FetchEnv :=
  ⟨none, fun _ => some (versionDoc v), "1.0.16", false⟩

/-- An environment with the override variable set to a non-whitelisted,
non-URL value. -/
def envDisabled : FetchEnv :=
  ⟨some "disabled", fun _ => some (versionDoc "1.1.5"), "1.0.16", false⟩

/-- The claimed invariant on the memoized global: it holds a document
whose `version` field (defaulting to `"1.0"`) passes the version gate. -/
def versionCompatState (p : Option JValue) : Prop :=
  ∃ doc ver, p = some doc ∧ getVersionString doc = some ver ∧
    versionInWindow ver = true

/-- The keys of a JSON object, in textual order. -/
def JObj.keys : JObj → List String
  | .nil => []
  | .cons k _ rest => k :: rest.keys

/-! ## Shared lemmas -/

set_option maxRecDepth 100000

/-- `json.loads` on the embedded default text yields exactly the
structured document written out as `bundledVal` (kernel evaluation of
the parser on the 10-kB constant). -/
theorem json_loads_bundled : json_loads bundled_parameters = some bundledVal := by
  decide!

/-- The embedded document satisfies the version gate. -/
theorem bundledVal_version_ok : versionCompatState (some bundledVal) :=
  ⟨bundledVal, "1.1.0", rfl, rfl, by decide⟩

/-- Every normal return of the fetch-and-gate tail (lines 48-77) leaves a
gate-passing dataset in the global and reports the URL it fetched. -/
theorem fetchAndGate_ok (env : FetchEnv) (url : String) (r : UpdateResult)
    (h : fetchAndGate env url = some r) :
    versionCompatState r.parameters ∧ r.fetchedUrl = some (url ++ env.version) := by
  simp only [fetchAndGate, json_loads_bundled] at h
  split at h
  · cases h
    exact ⟨bundledVal_version_ok, rfl⟩
  · split at h
    · cases h
      exact ⟨bundledVal_version_ok, rfl⟩
    · split at h
      · exact absurd h (by simp)
      · split at h
        · cases h
          next ver hver hwin =>
            exact ⟨⟨_, ver, rfl, hver, hwin⟩, rfl⟩
        · cases h
          exact ⟨bundledVal_version_ok, rfl⟩

/-- Every normal return of `update_parameters` from the unset state
leaves a gate-passing dataset in the global. -/
theorem update_ok (env : FetchEnv) (r : UpdateResult)
    (h : update_parameters env none = some r) :
    versionCompatState r.parameters := by
  cases hev : env.envVar with
  | some ev =>
    simp only [update_parameters, hev] at h
    split at h
    · exact (fetchAndGate_ok env ev r h).1
    · split at h
      · exact (fetchAndGate_ok env default_url r h).1
      · rw [json_loads_bundled] at h
        cases h
        exact bundledVal_version_ok
  | none =>
    simp only [update_parameters, hev] at h
    exact (fetchAndGate_ok env default_url r h).1

/-- A key outside an object leaves `lookupLast` at its accumulator. -/
theorem JObj.lookupLast_not_mem :
    (kvs : JObj) → (k : String) → k ∉ kvs.keys →
      ∀ acc, kvs.lookupLast k acc = acc
  | .nil, _, _, _ => rfl
  | .cons k0 v0 rest, k, h, acc => by
    simp only [JObj.keys, List.mem_cons, not_or] at h
    show rest.lookupLast k (if k0 = k then some v0 else acc) = acc
    rw [if_neg (fun hk => h.1 hk.symm)]
    exact JObj.lookupLast_not_mem rest k h.2 acc

/-- A key present in an object makes `lookupLast` return a value. -/
theorem JObj.lookupLast_mem :
    (kvs : JObj) → (k : String) → k ∈ kvs.keys →
      ∀ acc, ∃ v, kvs.lookupLast k acc = some v
  | .nil, k, h, _ => absurd h (by simp [JObj.keys])
  | .cons k0 v0 rest, k, h, acc => by
    by_cases hr : k ∈ rest.keys
    · show ∃ v, rest.lookupLast k (if k0 = k then some v0 else acc) = some v
      exact JObj.lookupLast_mem rest k hr _
    · simp only [JObj.keys, List.mem_cons] at h
      rcases h with h | h
      · subst h
        refine ⟨v0, ?_⟩
        show rest.lookupLast k (if k = k then some v0 else acc) = some v0
        rw [if_pos rfl]
        exact JObj.lookupLast_not_mem rest _ hr _
      · exact absurd h hr

/-! ## Claim theorems -/

/-- C1: `update_parameters` never leaves the process without a dataset —
every normal return from the unset state has the global set — and with a
fetch collaborator that always fails, `get_parameter("docker_images")`
returns exactly the payload obtained by parsing the embedded default
dataset text directly. -/
theorem C1_update_always_sets_dataset :
    (∀ env r, update_parameters env none = some r → r.parameters.isSome = true) ∧
    (∀ env : FetchEnv, (∀ u, env.fetch u = none) →
      get_parameter env none "docker_images" =
        some (json_loads bundled_parameters,
          (json_loads bundled_parameters).bind fun d => jget d "docker_images")) := by
  constructor
  · intro env r h
    obtain ⟨doc, ver, hdoc, -, -⟩ := update_ok env r h
    rw [hdoc]
    rfl
  · intro env hf
    have hupd : ∃ fu, update_parameters env none = some ⟨some bundledVal, fu, false⟩ := by
      cases hev : env.envVar with
      | some ev =>
        simp only [update_parameters, hev]
        split
        · exact ⟨some (ev ++ env.version),
            by simp only [fetchAndGate, hf, json_loads_bundled]⟩
        · split
          · exact ⟨some (default_url ++ env.version),
              by simp only [fetchAndGate, hf, json_loads_bundled]⟩
          · exact ⟨none, by rw [json_loads_bundled]⟩
      | none =>
        simp only [update_parameters, hev]
        exact ⟨some (default_url ++ env.version),
          by simp only [fetchAndGate, hf, json_loads_bundled]⟩
    obtain ⟨fu, hupd⟩ := hupd
    simp only [get_parameter, hupd, json_loads_bundled]
    rfl

/-- Witness for C1 at concrete environments. -/
theorem C1_witness :
    (some (JValue.jobj (.cons "version" (.jstr "1.1") (.nil)))).isSome = true ∧
    get_parameter envOffline none "docker_images" =
      some (json_loads bundled_parameters,
        (json_loads bundled_parameters).bind fun d => jget d "docker_images") :=
  ⟨C1_update_always_sets_dataset.1 (envServing "1.1")
      ⟨some (.jobj (.cons "version" (.jstr "1.1") (.nil))),
        some (default_url ++ "1.0.16"), false⟩ rfl,
    C1_update_always_sets_dataset.2 envOffline (fun _ => rfl)⟩

/-- C3: memoized load-once semantics — a call with the global already
set returns it unchanged without fetching, so once a first call from the
unset state has returned, every later call (under any environment, hence
any fetch collaborator) returns the identical dataset and performs no
fetch. -/
theorem C3_memoized_load_once :
    (∀ env (v : JValue), update_parameters env (some v) = some ⟨some v, none, false⟩) ∧
    (∀ env r, update_parameters env none = some r →
      ∀ env2, update_parameters env2 r.parameters = some ⟨r.parameters, none, false⟩) := by
  constructor
  · intro env v
    rfl
  · intro env r h env2
    obtain ⟨doc, ver, hdoc, -, -⟩ := update_ok env r h
    rw [hdoc]
    rfl

/-- Witness for C3: a second call after a successful first load returns
the same document and does not fetch. -/
theorem C3_witness :
    update_parameters envOffline
        (some (JValue.jobj (.cons "version" (.jstr "1.1") (.nil)))) =
      some ⟨some (.jobj (.cons "version" (.jstr "1.1") (.nil))), none, false⟩ ∧
    update_parameters envDisabled
        (some (JValue.jobj (.cons "version" (.jstr "1.1") (.nil)))) =
      some ⟨some (.jobj (.cons "version" (.jstr "1.1") (.nil))), none, false⟩ :=
  ⟨C3_memoized_load_once.1 envOffline _,
    C3_memoized_load_once.2 (envServing "1.1")
      ⟨some (.jobj (.cons "version" (.jstr "1.1") (.nil))),
        some (default_url ++ "1.0.16"), false⟩ rfl envDisabled⟩

/-- C8: on a loaded dataset, `get_parameter` returns the section payload
for present keys and `None` (not an error) for absent keys. -/
theorem C8_absent_section_returns_none :
    ∀ env kvs sect,
      get_parameter env (some (.jobj kvs)) sect =
        some (some (.jobj kvs), jlookup kvs sect) ∧
      (sect ∉ kvs.keys → jlookup kvs sect = none) ∧
      (sect ∈ kvs.keys → ∃ v, jlookup kvs sect = some v) :=
  fun _ kvs sect =>
    ⟨rfl, fun h => JObj.lookupLast_not_mem kvs sect h none,
      fun h => JObj.lookupLast_mem kvs sect h none⟩

/-- Witness for C8 on a one-section dataset. -/
theorem C8_witness :
    jlookup (JObj.cons "docker_images" .jnull (.nil)) "busybox_url" = none ∧
    ∃ v, jlookup (JObj.cons "docker_images" .jnull (.nil)) "docker_images" = some v :=
  ⟨(C8_absent_section_returns_none envOffline
      (JObj.cons "docker_images" .jnull (.nil)) "busybox_url").2.1 (by decide),
    (C8_absent_section_returns_none envOffline
      (JObj.cons "docker_images" .jnull (.nil)) "docker_images").2.2 (by decide)⟩

/-- C9: whenever `update_parameters` returns normally from the unset
state, the global holds a document whose `version` (defaulting to
`"1.0"` when absent) passes the `[1.1, 1.2)` gate; and the invariant is
preserved by further calls. -/
theorem C9_globals_version_always_compatible :
    (∀ env r, update_parameters env none = some r →
      versionCompatState r.parameters) ∧
    (∀ env p r, versionCompatState p → update_parameters env p = some r →
      versionCompatState r.parameters) := by
  constructor
  · exact update_ok
  · intro env p r hp hupd
    cases p with
    | none => exact update_ok env r hupd
    | some v =>
      cases hupd
      exact hp

/-- Witness for C9 after an accepted remote document, and preservation
of the invariant across a further (memoized) call. -/
theorem C9_witness :
    versionCompatState (some (.jobj (.cons "version" (.jstr "1.1") (.nil)))) ∧
    versionCompatState
      ((⟨some (.jobj (.cons "version" (.jstr "1.1") (.nil))), none, false⟩ :
        UpdateResult).parameters) :=
  ⟨C9_globals_version_always_compatible.1 (envServing "1.1")
      ⟨some (.jobj (.cons "version" (.jstr "1.1") (.nil))),
        some (default_url ++ "1.0.16"), false⟩ rfl,
    C9_globals_version_always_compatible.2 envDisabled
      (some (.jobj (.cons "version" (.jstr "1.1") (.nil))))
      ⟨some (.jobj (.cons "version" (.jstr "1.1") (.nil))), none, false⟩
      ⟨.jobj (.cons "version" (.jstr "1.1") (.nil)), "1.1", rfl, rfl, by decide⟩
      rfl⟩

/-- C2: the version gate — a successfully fetched and parsed document is
kept exactly when its `version` field (default `"1.0"` when absent) lies
in `[1.1, 1.2)` under `LooseVersion` ordering, otherwise the embedded
default replaces it; concretely `"1.0"`, `"1.2"`, `"2.0"` are rejected
and `"1.1"`, `"1.1.9"` are accepted. -/
theorem C2_version_gate :
    (∀ env content doc ver r, env.envVar = none →
      env.fetch (default_url ++ env.version) = some content →
      json_loads content = some doc →
      getVersionString doc = some ver →
      update_parameters env none = some r →
      r.parameters = some (if versionInWindow ver then doc else bundledVal)) ∧
    (∀ kvs, jlookup kvs "version" = none →
      getVersionString (.jobj kvs) = some "1.0") ∧
    (versionInWindow "1.0" = false ∧ versionInWindow "1.2" = false ∧
      versionInWindow "2.0" = false ∧ versionInWindow "1.1" = true ∧
      versionInWindow "1.1.9" = true) ∧
    (update_parameters (envServing "1.0") none =
        some ⟨some bundledVal, some (default_url ++ "1.0.16"), false⟩ ∧
      update_parameters (envServing "1.2") none =
        some ⟨some bundledVal, some (default_url ++ "1.0.16"), false⟩ ∧
      update_parameters (envServing "2.0") none =
        some ⟨some bundledVal, some (default_url ++ "1.0.16"), false⟩ ∧
      update_parameters (envServing "1.1") none =
        some ⟨some (.jobj (.cons "version" (.jstr "1.1") (.nil))),
          some (default_url ++ "1.0.16"), false⟩ ∧
      update_parameters (envServing "1.1.9") none =
        some ⟨some (.jobj (.cons "version" (.jstr "1.1.9") (.nil))),
          some (default_url ++ "1.0.16"), false⟩) := by
  refine ⟨?_, ?_, by decide, by decide!, by decide!, by decide!, rfl, rfl⟩
  · intro env content doc ver r hev hf hparse hver hupd
    simp only [update_parameters, hev] at hupd
    simp only [fetchAndGate, hf, hparse, hver] at hupd
    by_cases hw : versionInWindow ver = true
    · rw [if_pos hw] at hupd
      cases hupd
      rw [if_pos hw]
    · rw [if_neg hw] at hupd
      rw [json_loads_bundled] at hupd
      cases hupd
      rw [if_neg hw]
  · intro kvs h
    simp only [getVersionString, h]

/-- Witness for C2's general part: a served incompatible document is
replaced by the embedded default. -/
theorem C2_witness :
    (⟨some bundledVal, some (default_url ++ "1.0.16"), false⟩ :
        UpdateResult).parameters =
      some (if versionInWindow "1.0"
        then JValue.jobj (.cons "version" (.jstr "1.0") (.nil))
        else bundledVal) :=
  C2_version_gate.1 (envServing "1.0") (versionDoc "1.0")
    (.jobj (.cons "version" (.jstr "1.0") (.nil))) "1.0"
    ⟨some bundledVal, some (default_url ++ "1.0.16"), false⟩
    rfl rfl rfl rfl (by decide!)

/-- C5: the three-way dispatch on the override variable — whitelisted
values (or unset) fetch the default remote URL, values starting with
`http://`/`https://` are fetched literally, and any other non-empty
value skips the network and parses the embedded default directly. -/
theorem C5_env_override_dispatch :
    (∀ env r, envIsWhitelisted env.envVar = true →
      update_parameters env none = some r →
      r.fetchedUrl = some (default_url ++ env.version)) ∧
    (∀ env ev r, env.envVar = some ev →
      (strStartsWith ev "http://" = true ∨ strStartsWith ev "https://" = true) →
      update_parameters env none = some r →
      r.fetchedUrl = some (ev ++ env.version)) ∧
    (∀ env ev, env.envVar = some ev →
      envIsWhitelisted (some ev) = false →
      strStartsWith ev "http://" = false → strStartsWith ev "https://" = false →
      update_parameters env none =
        some ⟨json_loads bundled_parameters, none, false⟩) := by
  refine ⟨?_, ?_, ?_⟩
  · intro env r hw hupd
    cases hev : env.envVar with
    | none =>
      simp only [update_parameters, hev] at hupd
      exact (fetchAndGate_ok env default_url r hupd).2
    | some ev =>
      rw [hev] at hw
      simp only [envIsWhitelisted, Bool.or_eq_true, decide_eq_true_eq] at hw
      simp only [update_parameters, hev] at hupd
      have hw6 : ev = "" ∨ ev = "1" ∨ ev = "on" ∨ ev = "enabled" ∨
          ev = "yes" ∨ ev = "true" := by
        simp only [Option.some.injEq] at hw
        have hne : some ev ≠ (none : Option String) := by simp
        tauto
      rcases hw6 with h | h | h | h | h | h <;> subst h <;>
        rw [if_neg (by decide), if_pos (by decide)] at hupd <;>
        exact (fetchAndGate_ok env default_url r hupd).2
  · intro env ev r hev hpre hupd
    have hne : ev ≠ "" := by
      rintro rfl
      rcases hpre with h | h <;> exact absurd h (by decide)
    simp only [update_parameters, hev] at hupd
    rw [if_pos ⟨hne, hpre⟩] at hupd
    exact (fetchAndGate_ok env ev r hupd).2
  · intro env ev hev hw hp1 hp2
    simp only [update_parameters, hev]
    rw [if_neg (by rintro ⟨-, h | h⟩ <;> simp_all), if_neg (by simp_all),
      json_loads_bundled]

/-- Witness for C5 at the three kinds of override value. -/
theorem C5_witness :
    (⟨some (.jobj (.cons "version" (.jstr "1.1") (.nil))),
        some (default_url ++ "1.0.16"), false⟩ : UpdateResult).fetchedUrl =
      some (default_url ++ (envServing "1.1").version) ∧
    (⟨some (.jobj (.cons "version" (.jstr "1.1") (.nil))),
        some ("http://x/" ++ "1.0.16"), false⟩ : UpdateResult).fetchedUrl =
      some ("http://x/" ++ "1.0.16") ∧
    update_parameters envDisabled none =
      some ⟨json_loads bundled_parameters, none, false⟩ :=
  ⟨C5_env_override_dispatch.1 (envServing "1.1")
      ⟨some (.jobj (.cons "version" (.jstr "1.1") (.nil))),
        some (default_url ++ "1.0.16"), false⟩ rfl rfl,
    C5_env_override_dispatch.2.1
      ⟨some "http://x/", fun _ => some (versionDoc "1.1"), "1.0.16", false⟩
      "http://x/"
      ⟨some (.jobj (.cons "version" (.jstr "1.1") (.nil))),
        some ("http://x/" ++ "1.0.16"), false⟩
      rfl (Or.inl (by decide)) rfl,
    C5_env_override_dispatch.2.2 envDisabled "disabled" rfl (by decide)
      (by decide) (by decide)⟩

/-- C6: a fetched document that is not valid JSON (such as `{not json`)
leads to the embedded default being used with the cached file's removal
attempted, and a failing removal (`OSError`, swallowed) changes
nothing. -/
theorem C6_malformed_document_fallback :
    json_loads "\x7bnot json" = none ∧
    (∀ env r, env.envVar = none →
      env.fetch (default_url ++ env.version) = some "\x7bnot json" →
      update_parameters env none = some r →
      r.parameters = json_loads bundled_parameters ∧
        r.removeAttempted = true) ∧
    (∀ ev f ver, update_parameters ⟨ev, f, ver, true⟩ none =
      update_parameters ⟨ev, f, ver, false⟩ none) := by
  refine ⟨rfl, ?_, ?_⟩
  · intro env r hev hf hupd
    simp only [update_parameters, hev] at hupd
    simp only [fetchAndGate, hf] at hupd
    rw [show json_loads "\x7bnot json" = none from rfl] at hupd
    rw [json_loads_bundled] at hupd
    cases hupd
    exact ⟨json_loads_bundled.symm, rfl⟩
  · intro ev f ver
    cases ev with
    | none => simp only [update_parameters, fetchAndGate, json_loads_bundled]
    | some v => simp only [update_parameters, fetchAndGate, json_loads_bundled]

/-- Witness for C6 with a collaborator serving `{not json`. -/
theorem C6_witness :
    (⟨some bundledVal, some (default_url ++ "1.0.16"), true⟩ :
        UpdateResult).parameters = json_loads bundled_parameters ∧
    (⟨some bundledVal, some (default_url ++ "1.0.16"), true⟩ :
        UpdateResult).removeAttempted = true :=
  C6_malformed_document_fallback.2.1
    ⟨none, fun _ => some "\x7bnot json", "1.0.16", false⟩
    ⟨some bundledVal, some (default_url ++ "1.0.16"), true⟩
    rfl rfl (by decide!)

/-- C4: first-match-wins, two-level resolution over the bundled
`docker_images` catalog — `("Ubuntu", "14.04")` hits the Trusty version
rule; `("ubuntu", "99.99")` matches the Ubuntu entry but no version rule
and yields that entry's own default (Wily), which differs from the
catalog's top-level default; `("gentoo", "1.0")` matches no entry and
yields the top-level default (Jessie). -/
theorem C4_docker_resolution_order :
    dockerCatalog.bind
        (fun cat => resolveImageOrBox cat "images" "Ubuntu" "14.04") =
      some trustyImageRec ∧
    dockerCatalog.bind
        (fun cat => resolveImageOrBox cat "images" "ubuntu" "99.99") =
      some wilyDefaultRec ∧
    dockerCatalog.bind
        (fun cat => resolveImageOrBox cat "images" "gentoo" "1.0") =
      some jessieDefaultRec ∧
    dockerCatalog.bind (fun cat => jget cat "default") = some jessieDefaultRec ∧
    wilyDefaultRec ≠ jessieDefaultRec := by
  refine ⟨?_, ?_, ?_, ?_, by decide⟩ <;>
    · simp only [dockerCatalog, json_loads_bundled]
      rfl

/-- C10: in the bundled `vagrant_boxes` catalog, the CentOS `^7\.`
version rule resolves to a record whose `architectures` mapping has only
the `x86_64` key and no `i686` key, so an i686 box lookup on a resolved
CentOS 7.x record finds nothing — unlike every other version rule and
default of that catalog, which all carry both architectures. -/
theorem C10_centos7_box_lacks_i686 :
    vagrantCatalog.bind
        (fun cat => resolveImageOrBox cat "boxes" "centos" "7.2") =
      some centos7BoxRec ∧
    (jget centos7BoxRec "architectures").bind (fun a => jget a "i686") = none ∧
    (jget centos7BoxRec "architectures").bind (fun a => jget a "x86_64") =
      some (.jstr "bento/centos-7.2") ∧
    ∀ r ∈ vagrantCatalog.elim [] (fun cat => catalogRecords cat "boxes"),
      r = centos7BoxRec ∨ hasBothArchs r = true := by
  refine ⟨?_, rfl, rfl, ?_⟩
  · simp only [vagrantCatalog, json_loads_bundled]
    rfl
  · simp only [vagrantCatalog, json_loads_bundled]
    decide

/-- Witness for C10: the CentOS 7 record itself is among the catalog's
records and is the admitted exception. -/
theorem C10_witness :
    centos7BoxRec = centos7BoxRec ∨ hasBothArchs centos7BoxRec = true :=
  C10_centos7_box_lacks_i686.2.2.2 centos7BoxRec (by
    simp only [vagrantCatalog, json_loads_bundled]
    decide)

/-- C7: the embedded default dataset text parses as JSON, its top-level
`version` field is the string `"1.1.0"`, and that version lies inside
the `[1.1, 1.2)` compatibility window of the gate — so the fallback
itself always succeeds and is version-compatible. -/
theorem C7_bundled_dataset_well_formed :
    ∃ v, json_loads bundled_parameters = some v ∧
      jget v "version" = some (.jstr "1.1.0") ∧
      versionInWindow "1.1.0" = true :=
  ⟨bundledVal, json_loads_bundled, rfl, by decide⟩

end Repro
